import Mathlib

/-!
Shallow embedding of the macro-signals-notifier core (metric compute/fallback
contract, confidence aggregation, retry orchestration) and proofs of the
specification claims about it.

Dates are modelled as naturals, numeric cell values as rationals; a pandas
`NaN` cell is `none`.  Series are positional lists aligned to the
price series date index.
-/

namespace MacroSignals

abbrev Date := Nat

/-- A cell of a pandas series: a rational value or `NaN` (`none`). -/
abbrev Cell := Option ℚ

/-! ## Fallback path (`BaseMetric._fallback`, src/metrics/base_metric.py)

`_fallback` merges the CBBI.info series for the metric onto the price
DataFrame with `df.merge(cbbi_fetch(self.name), on=Date, how=left)`
and then forward-fills the `Value` column.

`cbbi_fetch` lives in `api/cbbiinfo_api.py`, which is absent from the
sources; per the spec it is the external Fallback Provider returning a
`(date, value)` series keyed by date, possibly empty or partially missing
and never raising.  Its response is therefore a parameter `fetched` of the
definitions below. -/

/-- The left-merge lookup of `df.merge(fetched, on=Date, how=left)` for a
single left-hand date: the first fetched row with that date supplies the
value (a date absent from `fetched`, or present with a missing value, yields
a missing cell). -/
def lookupFirst (fetched : List (Date × Cell)) (d : Date) : Cell :=
  match fetched.find? (fun p => p.1 == d) with
  | some p => p.2
  | none => none

/-- Embeds `Series.ffill` with the running last observed value as accumulator:
a missing cell inherits the nearest preceding resolved value, a resolved
cell passes through and becomes the new accumulator. -/
def ffillAux (acc : Cell) : List Cell → List Cell
  | [] => []
  | c :: cs =>
    match c with
    | some v => some v :: ffillAux (some v) cs
    | none => acc :: ffillAux acc cs

/-- Embeds `df[Value].ffill()`: forward fill starting with no prior value. -/
def ffill (l : List Cell) : List Cell := ffillAux none l

/-- The `Value` column of `BaseMetric._fallback`: left-merge of the fetched
series onto the price dates, then forward fill. -/
def fallbackCells (fetched : List (Date × Cell)) (dates : List Date) : List Cell :=
  ffill (dates.map (lookupFirst fetched))

/-- Embeds `BaseMetric._fallback` as a date-indexed series: the price series date
index paired with the merged and forward-filled values. -/
def fallback (fetched : List (Date × Cell)) (dates : List Date) : List (Date × Cell) :=
  dates.zip (fallbackCells fetched dates)

/-- The last resolved value of a prefix, as the fold that forward filling
realizes: starting from `acc`, each resolved value overwrites the
accumulator. -/
def lastResolved (acc : Cell) (vs : List ℚ) : Cell :=
  vs.foldl (fun _ v => some v) acc

/-! ## Error notification (`send_error_notification`, src/api/notifications.py)

Each channel delivery (Telegram, email) is wrapped in its own
`try/except` that only prints a diagnostic line; the function returns
normally whatever the channels do.  A channel outcome is modelled as
`Except String Unit`; the function returns the list of printed diagnostic
lines. -/

def send_error_notification (telegramSend emailSend : Except String Unit) : List String :=
  (match telegramSend with
   | .ok _ => []
   | .error e => ["Error sending Telegram error notification: " ++ e]) ++
  (match emailSend with
   | .ok _ => []
   | .error e => ["Error sending email error notification: " ++ e])

/-- Modelled from the spec: `utils.send_error_notification` (the module
`utils.py` is absent from the sources).  The spec describes the per-metric
error dispatch as best-effort delivery across the same channels, caught at
the channel call sites and never raising, which is the behavior of
`send_error_notification` in src/api/notifications.py; the missing wrapper
is modelled as delegating to it. -/
def utils_send_error_notification (telegramSend emailSend : Except String Unit) : List String :=
  send_error_notification telegramSend emailSend

/-! ## Metric compute (`BaseMetric.calculate`, src/metrics/base_metric.py) -/

/-- A channel-outcome pair: the Telegram delivery outcome and the email
delivery outcome offered to one notification dispatch. -/
abbrev Channels := Except String Unit × Except String Unit

/-- Outcome of one `BaseMetric.calculate` call: the returned series, the
number of error-notification dispatches attempted, and the diagnostic lines
the notification path printed. -/
structure CalcOutcome where
  result : List (Date × Cell)
  notifDispatches : Nat
  notifLogs : List String
  deriving Repr, DecidableEq

/-- Embeds `BaseMetric.calculate`: try the metric formula `_calculate`; on any
exception, dispatch one best-effort error notification and return
`_fallback` on the same price series.  The formula is a parameter
`calcFn` returning `Except` (it may raise); the notification wrapper and the
fallback path are total, so `calculate` itself is total — the embedding of
"never raises". -/
def calculate (calcFn : List Date → Except String (List (Date × Cell)))
    (fetched : List (Date × Cell)) (channels : Channels)
    (dates : List Date) : CalcOutcome :=
  match calcFn dates with
  | .ok r => ⟨r, 0, []⟩
  | .error _ =>
    ⟨fallback fetched dates, 1, utils_send_error_notification channels.1 channels.2⟩

/-! ## Confidence aggregation (`calculate_confidence_score`, src/main.py)

`df[cols].mean(axis=1)` with pandas defaults: for each row, `NaN` cells are
skipped, the mean is the sum of the non-missing cells divided by their
count, and a row whose selected cells are all `NaN` yields `NaN`. -/

/-- A pandas DataFrame restricted to what the claims need: a row count and
named columns of cells (each column positionally aligned to the date
index). -/
structure DataFrame where
  nRows : Nat
  cols : List (String × List Cell)

/-- Column selection by name (`df[name]`); the first column with the name
wins, a name that matches no column yields the empty column. -/
def getCol (df : DataFrame) (name : String) : List Cell :=
  match df.cols.find? (fun p => p.1 == name) with
  | some p => p.2
  | none => []

/-- The row of selected cells at position `i` (`df[cols]` restricted to one
row): one cell per requested column name. -/
def rowAt (df : DataFrame) (names : List String) (i : Nat) : List Cell :=
  names.map (fun n => (getCol df n).getD i none)

/-- Embeds `Series.mean` over one row with `skipna=True`: missing cells are
excluded from both the sum and the divisor; a row with no resolved cell
yields `NaN`. -/
def meanRow (cells : List Cell) : Cell :=
  if (cells.filterMap id).length = 0 then none
  else some ((cells.filterMap id).sum / ((cells.filterMap id).length : ℚ))

/-- Embeds `calculate_confidence_score(df, cols)`: `df[cols].mean(axis=1)`, one
aggregated cell per row of the frame. -/
def calculate_confidence_score (df : DataFrame) (cols : List String) : List Cell :=
  (List.range df.nRows).map (fun i => meanRow (rowAt df cols i))

/-! ## Pipeline run result frame (`run`, src/main.py)

For each metric, `run` stores
`df_bitcoin[metric.name] = (await metric.calculate(...)).clip(0, 1)` and
finally derives the `Confidence` column from the stored metric columns. -/

/-- Embeds `Series.clip(0, 1)` on one cell: a resolved value is clamped into
`[0, 1]`, a missing cell stays missing. -/
def clip01 (c : Cell) : Cell :=
  c.map (fun v => max 0 (min 1 v))

/-- One registered metric as the pipeline sees it: its column name, its
internal formula, the Fallback Provider response for it, and the channel
outcomes its error dispatch would meet. -/
structure MetricSpec where
  name : String
  calcFn : List Date → Except String (List (Date × Cell))
  fetched : List (Date × Cell)
  channels : Channels

/-- The value series `run` stores for one metric: the cells of
`metric.calculate(...)`, clipped to `[0, 1]`. -/
def metricColumn (m : MetricSpec) (dates : List Date) : List Cell :=
  ((calculate m.calcFn m.fetched m.channels dates).result.map Prod.snd).map clip01

/-- The metric columns of the result frame, in registration order. -/
def runColumns (metrics : List MetricSpec) (dates : List Date) : List (String × List Cell) :=
  metrics.map (fun m => (m.name, metricColumn m dates))

/-- The result frame `df_result` restricted to the metric columns. -/
def runFrame (metrics : List MetricSpec) (dates : List Date) : DataFrame :=
  ⟨dates.length, runColumns metrics dates⟩

/-- The derived `Confidence` column of the result frame. -/
def runConfidence (metrics : List MetricSpec) (dates : List Date) : List Cell :=
  calculate_confidence_score (runFrame metrics dates) (metrics.map (fun m => m.name))

/-! ## Retry orchestrator (`run_and_retry`, src/main.py)

`run_and_retry` asserts its argument preconditions, then loops
`for attempt in range(max_attempts)`: run the workload; on success
`exit(0)`; on any exception print the trace, dispatch one error
notification, and — unless this was the last attempt — sleep
`sleep_seconds_on_error` seconds before retrying; after the loop
`exit(-1)`.  The workload is a parameter indexed by the attempt number;
the notification channel outcomes are a parameter indexed likewise. -/

/-- Observable trace of one orchestrator invocation: workload invocations,
error-notification dispatches, entries into the inter-attempt sleep phase,
total seconds slept, diagnostic lines printed by the notification path, and
the process exit status (`0` from `exit(0)`, `-1` from `exit(-1)`). -/
structure RetryTrace where
  workloadCalls : Nat
  notifDispatches : Nat
  sleepPhases : Nat
  sleptSeconds : Nat
  notifLogs : List String
  exitStatus : Int
  deriving Repr, DecidableEq

/-- The attempt loop of `run_and_retry`.  `remaining` is the number of loop
iterations left (`max_attempts - attempt`); the sleep phase runs only when
further attempts remain (`attempt < max_attempts - 1`, i.e. `0 < r`). -/
def retryGo (w : Nat → Except String Unit) (ch : Nat → Channels) (sleepS : Nat) :
    Nat → Nat → RetryTrace
  | _, 0 => ⟨0, 0, 0, 0, [], -1⟩
  | attempt, r + 1 =>
    match w attempt with
    | .ok _ => ⟨1, 0, 0, 0, [], 0⟩
    | .error _ =>
      let logs := send_error_notification (ch attempt).1 (ch attempt).2
      let t := retryGo w ch sleepS (attempt + 1) r
      ⟨t.workloadCalls + 1, t.notifDispatches + 1,
       t.sleepPhases + (if 0 < r then 1 else 0),
       t.sleptSeconds + (if 0 < r then sleepS else 0),
       logs ++ t.notifLogs, t.exitStatus⟩

/-- Embeds `run_and_retry`: the two argument asserts (an `AssertionError` is the
`Except.error` case, raised before the loop and the workload run), then the
attempt loop started at attempt 0 with the full budget. -/
def run_and_retry (max_attempts sleep_seconds_on_error : Int)
    (w : Nat → Except String Unit) (ch : Nat → Channels) :
    Except String RetryTrace :=
  if max_attempts ≤ 0 then
    .error "Value of the max_attempts argument must be positive"
  else if sleep_seconds_on_error < 0 then
    .error "Value of the sleep_seconds_on_error argument must be non-negative"
  else
    .ok (retryGo w ch sleep_seconds_on_error.toNat 0 max_attempts.toNat)

/-- The channel-independent part of a retry trace: everything the state
machine decides (counts, sleeping, exit status), excluding the notification
diagnostics. -/
def coreTrace (t : RetryTrace) : Nat × Nat × Nat × Nat × Int :=
  (t.workloadCalls, t.notifDispatches, t.sleepPhases, t.sleptSeconds, t.exitStatus)

/-! ## Concrete instances used by witnesses -/

/-- A formula that succeeds and returns a half-confidence value on every
date of its input. -/
def exCalcOk : List Date → Except String (List (Date × Cell)) :=
  fun dates => .ok (dates.map (fun d => (d, some (1 / 2))))

/-- A formula that raises on every input. -/
def exCalcFail : List Date → Except String (List (Date × Cell)) :=
  fun _ => .error "metric formula failure"

/-- A Fallback Provider response resolving dates 1 and 3 only. -/
def exFetched : List (Date × Cell) :=
  [(1, some (3 / 10)), (3, some (7 / 10))]

/-- Channel outcomes with both deliveries succeeding. -/
def exChannels : Channels := (.ok (), .ok ())

/-- A metric whose formula succeeds but overshoots the unit interval. -/
def exMetricBig : MetricSpec :=
  ⟨"Big", fun dates => .ok (dates.map (fun d => (d, some 5))), [], exChannels⟩

/-- A metric whose formula raises, forcing the fallback path. -/
def exMetricFail : MetricSpec :=
  ⟨"Fail", exCalcFail, exFetched, exChannels⟩

/-- A two-row frame: at row 0 the metric cells are 0.2, 0.8 and missing; at
row 1 every metric cell is missing. -/
def exFrame : DataFrame :=
  ⟨2, [("A", [some (1 / 5), none]), ("B", [some (4 / 5), none]), ("C", [none, none])]⟩

/-! ## Shared lemmas -/

theorem ffillAux_length (l : List Cell) : ∀ acc : Cell, (ffillAux acc l).length = l.length := by
  induction l with
  | nil => intro acc; rfl
  | cons c cs ih =>
    intro acc
    cases c <;> simp [ffillAux, ih]

theorem fallbackCells_length (fetched : List (Date × Cell)) (dates : List Date) :
    (fallbackCells fetched dates).length = dates.length := by
  simp [fallbackCells, ffill, ffillAux_length]

theorem fallback_map_fst (fetched : List (Date × Cell)) (dates : List Date) :
    (fallback fetched dates).map Prod.fst = dates := by
  apply List.map_fst_zip
  simp [fallbackCells_length]

theorem ffillAux_getElem? (l : List Cell) :
    ∀ (acc : Cell) (i : Nat), i < l.length →
    (ffillAux acc l)[i]? = some (lastResolved acc ((l.take (i + 1)).filterMap id)) := by
  induction l with
  | nil => intro acc i h; simp at h
  | cons c cs ih =>
    intro acc i h
    match i with
    | 0 => cases c <;> simp [ffillAux, lastResolved]
    | Nat.succ i =>
      have hlt : i < cs.length := by simpa using h
      cases c with
      | none => simpa [ffillAux, List.take_succ_cons, lastResolved] using ih acc i hlt
      | some v => simpa [ffillAux, List.take_succ_cons, lastResolved] using ih (some v) i hlt

theorem ffill_getD (l : List Cell) (i : Nat) (h : i < l.length) :
    (ffill l).getD i none = lastResolved none ((l.take (i + 1)).filterMap id) := by
  rw [List.getD_eq_getElem?_getD]
  rw [show ffill l = ffillAux none l from rfl, ffillAux_getElem? l none i h]
  rfl

theorem take_filterMap_nil (l : List Cell) (i : Nat)
    (hall : ∀ j, j ≤ i → l.getD j none = none) :
    (l.take (i + 1)).filterMap id = [] := by
  rw [List.filterMap_eq_nil_iff]
  intro a ha
  obtain ⟨j, hget⟩ := List.mem_iff_getElem?.mp ha
  obtain ⟨hjlen, hja⟩ := List.getElem?_eq_some_iff.mp hget
  have hjlt : j < i + 1 := by
    rw [List.length_take] at hjlen
    exact lt_of_lt_of_le hjlen (min_le_left _ _)
  have hl : l[j]? = some a := by
    rw [← List.getElem?_take_of_lt hjlt]
    exact hget
  have hda : l.getD j none = a := by
    rw [List.getD_eq_getElem?_getD, hl]
    rfl
  have ha2 := hall j (Nat.lt_succ_iff.mp hjlt)
  rw [hda] at ha2
  simp [ha2]

theorem getD_some_mem {l : List Cell} {i : Nat} {v : ℚ}
    (h : l.getD i none = some v) : some v ∈ l := by
  rw [List.getD_eq_getElem?_getD] at h
  cases hg : l[i]? with
  | none => rw [hg] at h; simp at h
  | some c =>
    rw [hg] at h
    simp only [Option.getD_some] at h
    exact h ▸ List.get?_mem (by simpa using hg)

theorem clip01_bounds {c : Cell} {v : ℚ} (h : clip01 c = some v) : 0 ≤ v ∧ v ≤ 1 := by
  cases c with
  | none => simp [clip01] at h
  | some w =>
    simp only [clip01, Option.map_some', Option.some_inj] at h
    subst h
    exact ⟨le_max_left 0 _, max_le zero_le_one (min_le_left 1 w)⟩

theorem meanRow_eq_none_iff (cells : List Cell) :
    meanRow cells = none ↔ ∀ c ∈ cells, c = none := by
  unfold meanRow
  constructor
  · intro h c hc
    by_cases h0 : (cells.filterMap id).length = 0
    · have hnil : cells.filterMap id = [] := List.length_eq_zero.mp h0
      have := List.filterMap_eq_nil_iff.mp hnil c hc
      simpa using this
    · simp [h0] at h
  · intro hall
    have hnil : cells.filterMap id = [] :=
      List.filterMap_eq_nil_iff.mpr (fun a ha => by simp [hall a ha])
    simp [hnil]

theorem meanRow_mem_unit {cells : List Cell}
    (hb : ∀ v : ℚ, some v ∈ cells → 0 ≤ v ∧ v ≤ 1) {v : ℚ}
    (hv : meanRow cells = some v) : 0 ≤ v ∧ v ≤ 1 := by
  unfold meanRow at hv
  by_cases h0 : (cells.filterMap id).length = 0
  · simp [h0] at hv
  · rw [if_neg h0, Option.some_inj] at hv
    have hmem : ∀ x ∈ cells.filterMap id, 0 ≤ x ∧ x ≤ 1 := by
      intro x hx
      obtain ⟨a, ha, hax⟩ := List.mem_filterMap.mp hx
      have hax2 : a = some x := by simpa using hax
      exact hb x (hax2 ▸ ha)
    have hpos : (0 : ℚ) < ((cells.filterMap id).length : ℚ) := by
      exact_mod_cast Nat.pos_of_ne_zero h0
    have hsum0 : 0 ≤ (cells.filterMap id).sum :=
      List.sum_nonneg (fun x hx => (hmem x hx).1)
    have hsum1 : (cells.filterMap id).sum ≤ ((cells.filterMap id).length : ℚ) := by
      have h := List.sum_le_card_nsmul (cells.filterMap id) 1 (fun x hx => (hmem x hx).2)
      simpa using h
    subst hv
    exact ⟨div_nonneg hsum0 hpos.le, (div_le_one hpos).mpr hsum1⟩

theorem confidence_getD (df : DataFrame) (cols : List String) (i : Nat) (h : i < df.nRows) :
    (calculate_confidence_score df cols).getD i none = meanRow (rowAt df cols i) := by
  unfold calculate_confidence_score
  rw [List.getD_eq_getElem?_getD, List.getElem?_map, List.getElem?_range h]
  rfl

theorem metricColumn_bounds {m : MetricSpec} {dates : List Date} {v : ℚ}
    (h : some v ∈ metricColumn m dates) : 0 ≤ v ∧ v ≤ 1 := by
  unfold metricColumn at h
  obtain ⟨c, _, hcv⟩ := List.mem_map.mp h
  exact clip01_bounds hcv

theorem mem_getCol_runFrame {metrics : List MetricSpec} {dates : List Date} {n : String}
    {c : Cell} (h : c ∈ getCol (runFrame metrics dates) n) :
    ∃ m ∈ metrics, c ∈ metricColumn m dates := by
  unfold getCol at h
  cases hfind : ((runFrame metrics dates).cols.find? (fun p => p.1 == n)) with
  | none => simp [hfind] at h
  | some p =>
    simp only [hfind] at h
    have hp := List.mem_of_find?_eq_some hfind
    simp only [runFrame, runColumns, List.mem_map] at hp
    obtain ⟨m, hm, hpm⟩ := hp
    exact ⟨m, hm, by rw [← hpm] at h; exact h⟩

theorem retryGo_coreTrace_eq (w : Nat → Except String Unit) (ch ch' : Nat → Channels)
    (s : Nat) : ∀ r a : Nat, coreTrace (retryGo w ch s a r) = coreTrace (retryGo w ch' s a r) := by
  intro r
  induction r with
  | zero => intro a; rfl
  | succ r ih =>
    intro a
    cases hw : w a with
    | ok u => simp [retryGo, hw]
    | error e =>
      have hcore := ih (a + 1)
      simp only [coreTrace, Prod.mk.injEq] at hcore
      obtain ⟨hc, hd, hp, hsec, hex⟩ := hcore
      simp [retryGo, hw, coreTrace, hc, hd, hp, hsec, hex]

/-! ## Claim theorems -/

/-- Claim C1: for every metric formula, Fallback Provider response, channel
outcomes and price date index, `calculate` is total (the embedding of
"never raises") and — under the formula contract that a successful formula
result is aligned to the input date index — returns a series whose date
index equals the input date index (same length, same ordering), whether
the value comes from the formula or from the fallback path. -/
theorem c1_calculate_preserves_index
    (calcFn : List Date → Except String (List (Date × Cell)))
    (fetched : List (Date × Cell)) (channels : Channels) (dates : List Date)
    (hok : ∀ r, calcFn dates = .ok r → r.map Prod.fst = dates) :
    (calculate calcFn fetched channels dates).result.map Prod.fst = dates := by
  cases hc : calcFn dates with
  | ok r => simpa [calculate, hc] using hok r hc
  | error e => simp [calculate, hc, fallback_map_fst]

theorem c1_witness :
    (calculate exCalcOk exFetched exChannels [1, 2, 3]).result.map Prod.fst = [1, 2, 3] :=
  c1_calculate_preserves_index exCalcOk exFetched exChannels [1, 2, 3]
    (by intro r hr; simp only [exCalcOk, Except.ok.injEq] at hr; rw [← hr]; rfl)

/-- Claim C2: whenever the metric internal formula raises, `calculate` attempts
exactly one error-notification dispatch for that failure and returns the
fallback result computed on the same price series. -/
theorem c2_failure_notifies_once_and_falls_back
    (calcFn : List Date → Except String (List (Date × Cell)))
    (fetched : List (Date × Cell)) (channels : Channels) (dates : List Date)
    (e : String) (hfail : calcFn dates = .error e) :
    (calculate calcFn fetched channels dates).notifDispatches = 1 ∧
    (calculate calcFn fetched channels dates).result = fallback fetched dates := by
  simp [calculate, hfail]

theorem c2_witness :
    (calculate exCalcFail exFetched exChannels [0, 1, 2]).notifDispatches = 1 ∧
    (calculate exCalcFail exFetched exChannels [0, 1, 2]).result = fallback exFetched [0, 1, 2] :=
  c2_failure_notifies_once_and_falls_back exCalcFail exFetched exChannels [0, 1, 2]
    "metric formula failure" rfl

/-- Claim C6: the fallback series left-joins the provider values onto the price
series date index and forward-fills each position from the nearest
preceding resolved value of the merged column, and never backfills: a
position all of whose predecessors (itself included) merged to missing
stays missing. -/
theorem c6_fallback_ffill_no_backfill
    (fetched : List (Date × Cell)) (dates : List Date) (i : Nat)
    (h : i < dates.length) :
    (fallbackCells fetched dates).getD i none =
      lastResolved none (((dates.map (lookupFirst fetched)).take (i + 1)).filterMap id) ∧
    ((∀ j, j ≤ i → (dates.map (lookupFirst fetched)).getD j none = none) →
      (fallbackCells fetched dates).getD i none = none) := by
  have hlen : i < (dates.map (lookupFirst fetched)).length := by simpa using h
  constructor
  · exact ffill_getD _ i hlen
  · intro hall
    rw [show fallbackCells fetched dates = ffill (dates.map (lookupFirst fetched)) from rfl]
    rw [ffill_getD _ i hlen, take_filterMap_nil _ i hall]
    rfl

theorem c6_witness :
    (fallbackCells exFetched [0, 5]).getD 0 none = none :=
  (c6_fallback_ffill_no_backfill exFetched [0, 5] 0 (by decide)).2
    (by
      intro j hj
      have hj0 : j = 0 := Nat.le_zero.mp hj
      subst hj0
      rfl)

/-- Claim C3: at every date of the shared index, the aggregate confidence value
is the arithmetic mean of the non-missing metric values at that date:
it is missing exactly when every metric cell at the date is missing, and a
resolved aggregate times the count of non-missing cells equals their sum
(missing cells are excluded from both the sum and the divisor).  On the
concrete frame with row values {0.2, 0.8, missing} and an all-missing row,
the aggregate column is [0.5, missing]. -/
theorem c3_confidence_is_mean_of_defined :
    (∀ (df : DataFrame) (cols : List String) (i : Nat), i < df.nRows →
      ((calculate_confidence_score df cols).getD i none = none ↔
        ∀ c ∈ rowAt df cols i, c = none) ∧
      (∀ v : ℚ, (calculate_confidence_score df cols).getD i none = some v →
        v * (((rowAt df cols i).filterMap id).length : ℚ) =
          ((rowAt df cols i).filterMap id).sum)) ∧
    calculate_confidence_score exFrame ["A", "B", "C"] = [some (1 / 2), none] := by
  constructor
  · intro df cols i hi
    rw [confidence_getD df cols i hi]
    constructor
    · exact meanRow_eq_none_iff _
    · intro v hv
      unfold meanRow at hv
      by_cases h0 : ((rowAt df cols i).filterMap id).length = 0
      · simp [h0] at hv
      · rw [if_neg h0, Option.some_inj] at hv
        have hne : ((((rowAt df cols i).filterMap id).length : ℚ)) ≠ 0 := by
          exact_mod_cast h0
        rw [← hv, div_mul_cancel₀ _ hne]
  · have h1 : calculate_confidence_score exFrame ["A", "B", "C"] =
        [meanRow [some (1 / 5), some (4 / 5), none], meanRow [none, none, none]] := rfl
    have h2 : meanRow [none, none, none] = none := rfl
    have h3 : meanRow [some (1 / 5), some (4 / 5), none] = some (1 / 2) := by
      norm_num [meanRow, List.filterMap_cons]
    rw [h1, h2, h3]

theorem c3_witness :
    (calculate_confidence_score exFrame ["A", "B", "C"]).getD 1 none = none ↔
      ∀ c ∈ rowAt exFrame ["A", "B", "C"] 1, c = none :=
  (c3_confidence_is_mean_of_defined.1 exFrame ["A", "B", "C"] 1 (by decide)).1

/-- Claim C10: with an empty list of metric columns, `calculate_confidence_score`
returns a series of the full frame length whose value at every date is
missing; being total, it raises no division-by-zero error. -/
theorem c10_empty_cols_all_missing (df : DataFrame) :
    calculate_confidence_score df [] = List.replicate df.nRows none ∧
    (calculate_confidence_score df []).length = df.nRows := by
  constructor
  · rw [List.eq_replicate_iff]
    refine ⟨by simp [calculate_confidence_score], ?_⟩
    intro b hb
    obtain ⟨i, _, hbi⟩ := List.mem_map.mp hb
    rw [← hbi]
    simp [rowAt, meanRow]
  · simp [calculate_confidence_score]

/-- Claim C7: the value series the run stores for every evaluated metric is the
compute result clipped to [0, 1], so every defined value of every stored
metric column, and every defined value of the derived confidence column,
lies within [0, 1], whether the values came from direct computation or
from fallback. -/
theorem c7_run_values_in_unit (metrics : List MetricSpec) (dates : List Date) :
    (∀ m, m ∈ metrics → ∀ v : ℚ, some v ∈ metricColumn m dates → 0 ≤ v ∧ v ≤ 1) ∧
    (∀ v : ℚ, some v ∈ runConfidence metrics dates → 0 ≤ v ∧ v ≤ 1) := by
  constructor
  · intro m _ v hv
    exact metricColumn_bounds hv
  · intro v hv
    unfold runConfidence calculate_confidence_score at hv
    obtain ⟨i, _, hmi⟩ := List.mem_map.mp hv
    refine meanRow_mem_unit ?_ hmi
    intro u hu
    unfold rowAt at hu
    obtain ⟨n, _, hcell⟩ := List.mem_map.mp hu
    have hmemcol : some u ∈ getCol (runFrame metrics dates) n :=
      getD_some_mem hcell
    obtain ⟨m, _, hmc⟩ := mem_getCol_runFrame hmemcol
    exact metricColumn_bounds hmc

theorem c7_witness : 0 ≤ (1 : ℚ) ∧ (1 : ℚ) ≤ 1 :=
  (c7_run_values_in_unit [exMetricBig] [0]).1 exMetricBig (List.mem_singleton_self _) 1
    (by decide)

/-- Claim C4: the retry orchestrator with `max_attempts = 4`, a valid delay and a
workload failing on every attempt invokes the workload exactly 4 times,
dispatches 4 error notifications, enters the inter-attempt sleep phase
exactly 3 times (never after the final attempt), and terminates with the
distinct non-zero failure exit status `-1`. -/
theorem c4_always_failing_exhausts (s : Int) (hs : 0 ≤ s)
    (w : Nat → Except String Unit) (ch : Nat → Channels)
    (hw : ∀ n, ∃ e, w n = .error e) :
    ∃ t, run_and_retry 4 s w ch = .ok t ∧
      t.workloadCalls = 4 ∧ t.notifDispatches = 4 ∧ t.sleepPhases = 3 ∧
      t.exitStatus = -1 ∧ t.exitStatus ≠ 0 := by
  obtain ⟨e0, h0⟩ := hw 0
  obtain ⟨e1, h1⟩ := hw 1
  obtain ⟨e2, h2⟩ := hw 2
  obtain ⟨e3, h3⟩ := hw 3
  have hm : ¬ ((4 : Int) ≤ 0) := by norm_num
  have hs2 : ¬ (s < 0) := not_lt.mpr hs
  refine ⟨retryGo w ch s.toNat 0 4, ?_, ?_, ?_, ?_, ?_, ?_⟩
  · simp [run_and_retry, hm, hs2]
  · simp [retryGo, h0, h1, h2, h3]
  · simp [retryGo, h0, h1, h2, h3]
  · simp [retryGo, h0, h1, h2, h3]
  · simp [retryGo, h0, h1, h2, h3]
  · simp [retryGo, h0, h1, h2, h3]

theorem c4_witness :
    ∃ t, run_and_retry 4 10 (fun _ => .error "boom") (fun _ => exChannels) = .ok t ∧
      t.workloadCalls = 4 ∧ t.notifDispatches = 4 ∧ t.sleepPhases = 3 ∧
      t.exitStatus = -1 ∧ t.exitStatus ≠ 0 :=
  c4_always_failing_exhausts 10 (by norm_num) (fun _ => .error "boom") (fun _ => exChannels)
    (fun _ => ⟨"boom", rfl⟩)

/-- Claim C5: the retry orchestrator with `max_attempts = 3`, zero delay, and a
workload failing on the first two attempts but succeeding on the third
terminates with the success exit status `0` after exactly 3 workload
invocations, exactly 2 error-notification dispatches and exactly 2 entries
into the inter-attempt sleep phase. -/
theorem c5_success_on_third_attempt (w : Nat → Except String Unit)
    (ch : Nat → Channels) (e1 e2 : String)
    (h0 : w 0 = .error e1) (h1 : w 1 = .error e2) (h2 : w 2 = .ok ()) :
    ∃ t, run_and_retry 3 0 w ch = .ok t ∧
      t.workloadCalls = 3 ∧ t.notifDispatches = 2 ∧ t.sleepPhases = 2 ∧
      t.exitStatus = 0 := by
  refine ⟨retryGo w ch 0 0 3, ?_, ?_, ?_, ?_, ?_⟩
  · simp [run_and_retry]
  · simp [retryGo, h0, h1, h2]
  · simp [retryGo, h0, h1, h2]
  · simp [retryGo, h0, h1, h2]
  · simp [retryGo, h0, h1, h2]

theorem c5_witness :
    ∃ t, run_and_retry 3 0 (fun n => if n < 2 then .error "x" else .ok ())
        (fun _ => exChannels) = .ok t ∧
      t.workloadCalls = 3 ∧ t.notifDispatches = 2 ∧ t.sleepPhases = 2 ∧
      t.exitStatus = 0 :=
  c5_success_on_third_attempt (fun n => if n < 2 then .error "x" else .ok ())
    (fun _ => exChannels) "x" "x" rfl rfl rfl

/-- Claim C8: a failure of the notification collaborator itself is caught at the
channel call site inside `send_error_notification` and logged (the
diagnostic line for a failed channel is recorded); it never escapes: the
orchestrator observable core trace (attempt count, dispatches, sleeps,
exit status) and the metric compute result and dispatch count are
identical for any channel outcomes. -/
theorem c8_notification_failures_isolated :
    (∀ (e : String) (em : Except String Unit),
      ("Error sending Telegram error notification: " ++ e) ∈
        send_error_notification (.error e) em) ∧
    (∀ (e : String) (tg : Except String Unit),
      ("Error sending email error notification: " ++ e) ∈
        send_error_notification tg (.error e)) ∧
    (∀ (ma ss : Int) (w : Nat → Except String Unit) (ch ch' : Nat → Channels),
      (run_and_retry ma ss w ch).map coreTrace =
        (run_and_retry ma ss w ch').map coreTrace) ∧
    (∀ (calcFn : List Date → Except String (List (Date × Cell)))
       (fetched : List (Date × Cell)) (ch ch' : Channels) (dates : List Date),
      (calculate calcFn fetched ch dates).result =
        (calculate calcFn fetched ch' dates).result ∧
      (calculate calcFn fetched ch dates).notifDispatches =
        (calculate calcFn fetched ch' dates).notifDispatches) := by
  refine ⟨?_, ?_, ?_, ?_⟩
  · intro e em
    simp [send_error_notification]
  · intro e tg
    cases tg <;> simp [send_error_notification]
  · intro ma ss w ch ch'
    unfold run_and_retry
    split
    · rfl
    · split
      · rfl
      · simp only [Except.map]
        rw [retryGo_coreTrace_eq w ch ch' ss.toNat ma.toNat 0]
  · intro calcFn fetched ch ch' dates
    cases hc : calcFn dates <;> simp [calculate, hc]

/-- Claim C9: called with `max_attempts ≤ 0` or `sleep_seconds_on_error < 0`,
`run_and_retry` raises an `AssertionError` (the `Except.error` case) before
invoking the workload even once — the result does not depend on the
workload — and the attempt loop is entered exactly when both preconditions
hold. -/
theorem c9_argument_asserts (ma ss : Int) (w : Nat → Except String Unit)
    (ch : Nat → Channels) :
    ((ma ≤ 0 ∨ ss < 0) →
      (∃ msg, run_and_retry ma ss w ch = .error msg) ∧
      (∀ w2, run_and_retry ma ss w ch = run_and_retry ma ss w2 ch)) ∧
    (0 < ma → 0 ≤ ss →
      run_and_retry ma ss w ch = .ok (retryGo w ch ss.toNat 0 ma.toNat)) := by
  constructor
  · intro h
    by_cases hma : ma ≤ 0
    · exact ⟨⟨"Value of the max_attempts argument must be positive",
        by simp [run_and_retry, hma]⟩, fun w2 => by simp [run_and_retry, hma]⟩
    · have hss : ss < 0 := h.resolve_left hma
      exact ⟨⟨"Value of the sleep_seconds_on_error argument must be non-negative",
        by simp [run_and_retry, hma, hss]⟩,
        fun w2 => by simp [run_and_retry, hma, hss]⟩
  · intro hma hss
    simp [run_and_retry, not_le.mpr hma, not_lt.mpr hss]

theorem c9_witness :
    (∃ msg, run_and_retry 0 10 (fun _ => .ok ()) (fun _ => exChannels) = .error msg) ∧
    run_and_retry 3 0 (fun _ => .ok ()) (fun _ => exChannels) =
      .ok (retryGo (fun _ => .ok ()) (fun _ => exChannels) 0 0 3) :=
  ⟨((c9_argument_asserts 0 10 (fun _ => .ok ()) (fun _ => exChannels)).1
      (Or.inl (by norm_num))).1,
   by
    have h := (c9_argument_asserts 3 0 (fun _ => .ok ()) (fun _ => exChannels)).2
      (by norm_num) (by norm_num)
    simpa using h⟩

end MacroSignals
